import Mathlib

/-!
Verification development for an EWF (E01) forensic-image toolchain written in
TypeScript.  The development shallowly embeds three decoders:

* the FAT12/16/32 filesystem walker  (`src/lib/fat32-parser.ts`, first part),
* the MBR/GPT partition-table parser (`src/lib/fat32-parser.ts`, second part),
* the EWF container walker           (`src/components/E01Viewer.tsx`).

Byte buffers (`Uint8Array`) are embedded as `List Nat` with every element a
byte value; JavaScript strings are embedded as `List Nat` of UTF-16 code
units (`JStr`).  JavaScript numbers are embedded as `Nat`/`Int` with the
bit-twiddling of the source made explicit; `bigint` values are embedded as
`Nat`.  Unbounded `while` loops of the source are embedded with an explicit
fuel argument whose sufficiency is justified at each definition.
-/

/-! ## JavaScript string primitives

A JavaScript string is a sequence of UTF-16 code units; `JStr` is that
sequence.  `jstr` embeds an ASCII Lean string literal (all constants compared
against in the source are ASCII, so one code unit per character). -/

abbrev JStr := List Nat

def jstr (s : String) : JStr := s.data.map Char.toNat

/-- Code units removed by `String.prototype.trim`: ECMAScript WhiteSpace
(TAB, VT, FF, SP, NBSP, ZWNBSP and the Unicode Zs category) and
LineTerminator (LF, CR, LS, PS). -/
def isJsWhitespace (c : Nat) : Bool :=
  c = 9 || c = 10 || c = 11 || c = 12 || c = 13 || c = 32 || c = 0xA0 ||
  c = 0x1680 || (0x2000 ≤ c && c ≤ 0x200A) || c = 0x2028 || c = 0x2029 ||
  c = 0x202F || c = 0x205F || c = 0x3000 || c = 0xFEFF

/-- `s.trim()`. -/
def jsTrim (s : JStr) : JStr :=
  ((s.dropWhile isJsWhitespace).reverse.dropWhile isJsWhitespace).reverse

/-- `s.toLowerCase()`, restricted to the ASCII range (identity elsewhere).
Every string the source compares a lowercased value against is ASCII, and
`toLowerCase` agrees with this map on ASCII. -/
def toLowerAscii (s : JStr) : JStr :=
  s.map (fun c => if 65 ≤ c ∧ c ≤ 90 then c + 32 else c)

def splitOnPredAux (p : Nat → Bool) : List Nat → List Nat → List JStr
  | [], acc => [acc.reverse]
  | c :: rest, acc =>
    if p c then acc.reverse :: splitOnPredAux p rest []
    else splitOnPredAux p rest (c :: acc)

/-- `s.split(sep)` for a single separator character: every occurrence splits,
empty segments are kept (JS semantics). -/
def splitOnChar (sep : Nat) (s : JStr) : List JStr :=
  splitOnPredAux (fun c => c = sep) s []

def isCRLF (c : Nat) : Bool := c = 13 || c = 10

/-- Collapse the interior empty segments produced by splitting on single
characters into the segments produced by splitting on character *runs*.
The first and last segments are kept even when empty, matching
`"\n".split(/[\r\n]+/) = ["", ""]`. -/
def dropInteriorEmpty : List JStr → List JStr
  | [] => []
  | [x] => [x]
  | x :: rest => if x = [] then dropInteriorEmpty rest else x :: dropInteriorEmpty rest

/-- `s.split(/[\r\n]+/)`: splitting on a run of CR/LF characters is splitting
on each CR/LF with the interior empty segments removed. -/
def splitCRLFRuns (s : JStr) : List JStr :=
  match splitOnPredAux isCRLF s [] with
  | [] => []
  | [x] => [x]
  | x :: rest => x :: dropInteriorEmpty rest

/-- `parts.join(sep)` for a single-character separator. -/
def joinWithChar (sep : Nat) : List JStr → JStr
  | [] => []
  | [x] => x
  | x :: rest => x ++ sep :: joinWithChar sep rest

/-! ## Text decoders

`decodeUtf8` is the WHATWG UTF-8 decoder in replacement mode, as used by
`new TextDecoder('utf-8', { fatal: false })` and by `new TextDecoder()`.
State: `needed` continuation bytes outstanding, `seen` consumed so far,
`cp` the partial code point, `lo`/`hi` the bounds for the next byte.  On a
malformed continuation byte the decoder emits U+FFFD and reprocesses the byte
in the initial state; that reprocessing is inlined through `utf8Step0` to
keep the recursion structural. -/

def utf8Step0 (b : Nat) : List Nat × Nat × Nat × Nat × Nat :=
  if b ≤ 0x7F then ([b], 0, 0, 0x80, 0xBF)
  else if 0xC2 ≤ b ∧ b ≤ 0xDF then ([], 1, b &&& 0x1F, 0x80, 0xBF)
  else if 0xE0 ≤ b ∧ b ≤ 0xEF then
    ([], 2, b &&& 0xF, (if b = 0xE0 then 0xA0 else 0x80), (if b = 0xED then 0x9F else 0xBF))
  else if 0xF0 ≤ b ∧ b ≤ 0xF4 then
    ([], 3, b &&& 0x7, (if b = 0xF0 then 0x90 else 0x80), (if b = 0xF4 then 0x8F else 0xBF))
  else ([0xFFFD], 0, 0, 0x80, 0xBF)

def decodeUtf8Aux : List Nat → Nat → Nat → Nat → Nat → Nat → List Nat
  | [], needed, _, _, _, _ => if needed = 0 then [] else [0xFFFD]
  | b :: rest, needed, seen, cp, lo, hi =>
    if needed = 0 then
      match utf8Step0 b with
      | (out, n2, cp2, lo2, hi2) => out ++ decodeUtf8Aux rest n2 0 cp2 lo2 hi2
    else if lo ≤ b ∧ b ≤ hi then
      if needed = seen + 1 then
        ((cp <<< 6) + (b &&& 0x3F)) :: decodeUtf8Aux rest 0 0 0 0x80 0xBF
      else decodeUtf8Aux rest needed (seen + 1) ((cp <<< 6) + (b &&& 0x3F)) 0x80 0xBF
    else
      match utf8Step0 b with
      | (out, n2, cp2, lo2, hi2) => 0xFFFD :: (out ++ decodeUtf8Aux rest n2 0 cp2 lo2 hi2)

/-- Encode one Unicode scalar value as UTF-16 code units. -/
def cpToUnits (cp : Nat) : List Nat :=
  if cp ≤ 0xFFFF then [cp]
  else [0xD800 + (cp - 0x10000) / 0x400, 0xDC00 + (cp - 0x10000) % 0x400]

def decodeUtf8 (bytes : List Nat) : JStr :=
  (decodeUtf8Aux bytes 0 0 0 0x80 0xBF).flatMap cpToUnits

/-- The windows-1252 mapping for bytes 0x80..0x9F (the WHATWG `ascii` label
resolves to windows-1252, which `new TextDecoder('ascii')` uses); other
bytes map to themselves. -/
def cp1252Byte (b : Nat) : Nat :=
  if b = 0x80 then 0x20AC else if b = 0x82 then 0x201A else if b = 0x83 then 0x192
  else if b = 0x84 then 0x201E else if b = 0x85 then 0x2026 else if b = 0x86 then 0x2020
  else if b = 0x87 then 0x2021 else if b = 0x88 then 0x2C6 else if b = 0x89 then 0x2030
  else if b = 0x8A then 0x160 else if b = 0x8B then 0x2039 else if b = 0x8C then 0x152
  else if b = 0x8E then 0x17D else if b = 0x91 then 0x2018 else if b = 0x92 then 0x2019
  else if b = 0x93 then 0x201C else if b = 0x94 then 0x201D else if b = 0x95 then 0x2022
  else if b = 0x96 then 0x2013 else if b = 0x97 then 0x2014 else if b = 0x98 then 0x2DC
  else if b = 0x99 then 0x2122 else if b = 0x9A then 0x161 else if b = 0x9B then 0x203A
  else if b = 0x9C then 0x153 else if b = 0x9E then 0x17E else if b = 0x9F then 0x178
  else b

def decodeCp1252 (bytes : List Nat) : JStr := bytes.map cp1252Byte

/-- Pair bytes into little-endian UTF-16 code units; a trailing lone byte
yields U+FFFD (WHATWG utf-16le at end of stream). -/
def utf16Units : List Nat → List Nat
  | [] => []
  | [_] => [0xFFFD]
  | b0 :: b1 :: rest => (b0 + (b1 <<< 8)) :: utf16Units rest

/-- Replace unpaired surrogate code units with U+FFFD (`TextDecoder` output
is always well-formed UTF-16). -/
def utf16Sanitize : List Nat → List Nat
  | [] => []
  | u :: rest =>
    if 0xD800 ≤ u ∧ u ≤ 0xDBFF then
      match rest with
      | [] => [0xFFFD]
      | u2 :: rest2 =>
        if 0xDC00 ≤ u2 ∧ u2 ≤ 0xDFFF then u :: u2 :: utf16Sanitize rest2
        else 0xFFFD :: utf16Sanitize (u2 :: rest2)
    else if 0xDC00 ≤ u ∧ u ≤ 0xDFFF then 0xFFFD :: utf16Sanitize rest
    else u :: utf16Sanitize rest

def decodeUtf16le (bytes : List Nat) : JStr := utf16Sanitize (utf16Units bytes)

/-! ## Hex helpers -/

/-- Code unit of the lowercase hex digit for `n < 16`. -/
def hexDigit (n : Nat) : Nat := if n < 10 then 48 + n else 87 + n

/-- `n.toString(16).padStart(digits, '0')` for values fitting in `digits`
hex digits (most significant first). -/
def toHexFixed : Nat → Nat → List Nat
  | 0, _ => []
  | d + 1, n => toHexFixed d (n / 16) ++ [hexDigit (n % 16)]

/-- `b.toString(16)` for a byte value (no padding). -/
def byteToHexNoPad (b : Nat) : List Nat :=
  if b < 16 then [hexDigit b] else [hexDigit (b / 16 % 16), hexDigit (b % 16)]

/-- `data.slice(start, stop)` on a `Uint8Array` with `0 ≤ start ≤ stop`
already resolved: clamps to the buffer and yields `[]` when `stop ≤ start`. -/
def jsSlice (data : List Nat) (start stop : Nat) : List Nat :=
  (data.take stop).drop start

/-- Two's-complement reading of a value below `2^32` as a JavaScript 32-bit
signed integer (the result of `|`/`<<` coercion). -/
def toInt32 (n : Nat) : Int :=
  if n < 0x80000000 then (n : Int) else (n : Int) - 0x100000000

/-! ## FAT12/16/32 filesystem parser (`src/lib/fat32-parser.ts`)

`readUint16LE`/`readUint32LE` of that file check bounds themselves and
return 0 on a short read; `data[i]` accesses are embedded with `List.getD`
(every access in the source is dominated by an explicit length check). -/

def fatReadUint16LE (data : List Nat) (offset : Nat) : Nat :=
  if offset + 2 > data.length then 0
  else data.getD offset 0 ||| (data.getD (offset + 1) 0 <<< 8)

def fatReadUint32LE (data : List Nat) (offset : Nat) : Nat :=
  if offset + 4 > data.length then 0
  else data.getD offset 0 ||| (data.getD (offset + 1) 0 <<< 8) |||
       (data.getD (offset + 2) 0 <<< 16) ||| (data.getD (offset + 3) 0 <<< 24)

structure FATBootSector where
  bytesPerSector : Nat
  sectorsPerCluster : Nat
  reservedSectors : Nat
  numFATs : Nat
  rootEntryCount : Nat
  totalSectors : Nat
  sectorsPerFAT : Nat
  rootCluster : Nat
  volumeLabel : JStr
  fsType : JStr
deriving Repr, DecidableEq

inductive FatType where
  | fat12
  | fat16
  | fat32
  | unknown
deriving Repr, DecidableEq

/-- `FATFileEntry`; `children` is optional and only attached to directory
entries by the tree walk.  `cluster` is an `Int` because the source computes
it with 32-bit signed `<<`/`|`, which is negative when the stored high half
has its top bit set. -/
inductive FATFileEntry : Type where
  | mk : (name shortName extension fullName : JStr) →
         (isDirectory isHidden isSystem : Bool) →
         (size : Nat) → (cluster : Int) →
         (children : Option (List FATFileEntry)) → (path : JStr) → FATFileEntry

def FATFileEntry.name : FATFileEntry → JStr
  | .mk n _ _ _ _ _ _ _ _ _ _ => n

def FATFileEntry.shortName : FATFileEntry → JStr
  | .mk _ s _ _ _ _ _ _ _ _ _ => s

def FATFileEntry.extension : FATFileEntry → JStr
  | .mk _ _ e _ _ _ _ _ _ _ _ => e

def FATFileEntry.isDirectory : FATFileEntry → Bool
  | .mk _ _ _ _ d _ _ _ _ _ _ => d

def FATFileEntry.isHidden : FATFileEntry → Bool
  | .mk _ _ _ _ _ h _ _ _ _ _ => h

def FATFileEntry.size : FATFileEntry → Nat
  | .mk _ _ _ _ _ _ _ sz _ _ _ => sz

def FATFileEntry.cluster : FATFileEntry → Int
  | .mk _ _ _ _ _ _ _ _ c _ _ => c

def FATFileEntry.children : FATFileEntry → Option (List FATFileEntry)
  | .mk _ _ _ _ _ _ _ _ _ ch _ => ch

def FATFileEntry.path : FATFileEntry → JStr
  | .mk _ _ _ _ _ _ _ _ _ _ p => p

def FATFileEntry.setChildren : FATFileEntry → Option (List FATFileEntry) → FATFileEntry
  | .mk n s e f d h sy sz c _ p, ch => .mk n s e f d h sy sz c ch p

structure FATParseResult where
  valid : Bool
  fatType : FatType
  bootSector : Option FATBootSector
  rootEntries : List FATFileEntry
  errors : List JStr

/-- `parseBootSector`. -/
def parseBootSector (data : List Nat) : Option FATBootSector :=
  if data.length < 512 then none
  else if data.getD 510 0 ≠ 0x55 ∨ data.getD 511 0 ≠ 0xAA then none
  else
    let bytesPerSector := fatReadUint16LE data 11
    let sectorsPerCluster := data.getD 13 0
    let reservedSectors := fatReadUint16LE data 14
    let numFATs := data.getD 16 0
    let rootEntryCount := fatReadUint16LE data 17
    let totalSectors0 := fatReadUint16LE data 19
    let sectorsPerFAT0 := fatReadUint16LE data 22
    let totalSectors := if totalSectors0 = 0 then fatReadUint32LE data 32 else totalSectors0
    if sectorsPerFAT0 = 0 then
      some { bytesPerSector, sectorsPerCluster, reservedSectors, numFATs, rootEntryCount,
             totalSectors,
             sectorsPerFAT := fatReadUint32LE data 36,
             rootCluster := fatReadUint32LE data 44,
             volumeLabel := jsTrim (decodeCp1252 (jsSlice data 71 82)),
             fsType := jsTrim (decodeCp1252 (jsSlice data 82 90)) }
    else
      some { bytesPerSector, sectorsPerCluster, reservedSectors, numFATs, rootEntryCount,
             totalSectors,
             sectorsPerFAT := sectorsPerFAT0,
             rootCluster := 0,
             volumeLabel := jsTrim (decodeCp1252 (jsSlice data 43 54)),
             fsType := jsTrim (decodeCp1252 (jsSlice data 54 62)) }

/-- `determineFATType`.  The zero-divisor branches make the IEEE-754
behaviour of the source explicit: with `bytesPerSector = 0`,
`rootDirSectors` is `NaN` (when `rootEntryCount = 0`, giving false
comparisons, hence FAT32) or `+Infinity` (making `clusterCount = -Infinity`,
hence FAT12); with `sectorsPerCluster = 0`, `clusterCount` is `+Infinity`
(FAT32), `-Infinity` (FAT12) or `NaN` (FAT32) according to the sign of
`dataSectors`.  All non-degenerate arithmetic is exact in doubles. -/
def determineFATType (bs : FATBootSector) : FatType :=
  if bs.bytesPerSector = 0 then
    (if bs.rootEntryCount = 0 then .fat32 else .fat12)
  else
    let rootDirSectors : Nat := (bs.rootEntryCount * 32 + bs.bytesPerSector - 1) / bs.bytesPerSector
    let dataSectors : Int := (bs.totalSectors : Int) - bs.reservedSectors -
      bs.numFATs * bs.sectorsPerFAT - rootDirSectors
    if bs.sectorsPerCluster = 0 then
      (if 0 < dataSectors then .fat32 else if dataSectors < 0 then .fat12 else .fat32)
    else
      let clusterCount : Int := Int.fdiv dataSectors bs.sectorsPerCluster
      if clusterCount < 4085 then .fat12
      else if clusterCount < 65525 then .fat16
      else .fat32

/-- The fixed in-entry byte positions of the UTF-16 units of one long-name
slot; collection stops at the first 0x0000 or 0xFFFF unit. -/
def lfnCollect (data : List Nat) (offset : Nat) : List Nat → List Nat
  | [] => []
  | o :: os =>
    let c := fatReadUint16LE data (offset + o)
    if c = 0 ∨ c = 0xFFFF then [] else c :: lfnCollect data offset os

/-- `longNameBuffer[i] = s` for a JavaScript array: grows the array through
holes when `i ≥ length` (holes behave as empty strings for `join` and
`length`, the only observations the source makes). -/
def setBufferAt (buf : List JStr) (i : Nat) (s : JStr) : List JStr :=
  if i < buf.length then buf.set i s
  else buf ++ List.replicate (i - buf.length) [] ++ [s]

/-- The trimmed short name of the 32-byte entry at `offset` (with the 0x05
first-byte escape applied), shared between `parseDirectoryEntry` and the
dot-entry predicate used in the statements. -/
def shortNameAt (data : List Nat) (offset : Nat) : JStr :=
  let raw := jsTrim (decodeCp1252 (jsSlice data offset (offset + 8)))
  if data.getD offset 0 = 0x05 then 0xE5 :: raw.drop 1 else raw

structure DirEntryStep where
  entry : Option FATFileEntry
  isEnd : Bool
  buffer : List JStr

/-- `parseDirectoryEntry`.  The source mutates `longNameBuffer` in place;
the embedding returns the updated buffer in the step. -/
def parseDirectoryEntry (data : List Nat) (offset : Nat) (longNameBuffer : List JStr)
    (parentPath : JStr) : DirEntryStep :=
  if offset + 32 > data.length then ⟨none, true, longNameBuffer⟩
  else
    let firstByte := data.getD offset 0
    if firstByte = 0x00 then ⟨none, true, longNameBuffer⟩
    else if firstByte = 0xE5 then ⟨none, false, longNameBuffer⟩
    else
      let attr := data.getD (offset + 11) 0
      if attr &&& 0x0F = 0x0F then
        let ordinal := firstByte &&& 0x3F
        let chars := lfnCollect data offset [1, 3, 5, 7, 9, 14, 16, 18, 20, 22, 24, 28, 30]
        -- `ordinal = 0` makes the source write to index -1, which neither
        -- `length` nor `join` observe; the buffer is then unchanged.
        if ordinal = 0 then ⟨none, false, longNameBuffer⟩
        else ⟨none, false, setBufferAt longNameBuffer (ordinal - 1) chars⟩
      else
        let shortName := shortNameAt data offset
        let extension := jsTrim (decodeCp1252 (jsSlice data (offset + 8) (offset + 11)))
        let isDirectory := attr &&& 0x10 ≠ 0
        let isHidden := attr &&& 0x02 ≠ 0
        let isSystem := attr &&& 0x04 ≠ 0
        let isVolumeLabel := attr &&& 0x08 ≠ 0
        if isVolumeLabel ∧ ¬isDirectory then ⟨none, false, longNameBuffer⟩
        else
          let clusterLow := fatReadUint16LE data (offset + 26)
          let clusterHigh := fatReadUint16LE data (offset + 20)
          let cluster := toInt32 ((clusterHigh <<< 16) ||| clusterLow)
          let size := fatReadUint32LE data (offset + 28)
          let isDotEntry := shortName = jstr "." ∨ shortName = jstr ".."
          let consume := longNameBuffer.length ≠ 0 ∧ ¬isDotEntry
          let fullName :=
            if consume then longNameBuffer.flatten
            else if extension ≠ [] ∧ ¬isDotEntry then shortName ++ 0x2E :: extension
            else shortName
          let buffer2 := if consume then [] else longNameBuffer
          if isDotEntry then ⟨none, false, buffer2⟩
          else
            let path := if parentPath ≠ [] then parentPath ++ 0x2F :: fullName else fullName
            ⟨some (.mk fullName shortName extension fullName isDirectory isHidden isSystem
                     size cluster none path), false, buffer2⟩

/-- `getNextCluster`. -/
def getNextCluster (fat : List Nat) (cluster : Nat) (fatType : FatType) : Nat :=
  match fatType with
  | .fat32 =>
    let offset := cluster * 4
    if offset + 4 > fat.length then 0x0FFFFFFF
    else fatReadUint32LE fat offset &&& 0x0FFFFFFF
  | .fat16 =>
    let offset := cluster * 2
    if offset + 2 > fat.length then 0xFFFF
    else fatReadUint16LE fat offset
  | _ =>
    let offset := cluster + cluster / 2
    if offset + 2 > fat.length then 0xFFF
    else
      let value := fatReadUint16LE fat offset
      if cluster % 2 = 0 then value &&& 0x0FFF else value >>> 4

/-- `isEndOfChain`. -/
def isEndOfChain (cluster : Nat) (fatType : FatType) : Bool :=
  match fatType with
  | .fat32 => 0x0FFFFFF8 ≤ cluster
  | .fat16 => 0xFFF8 ≤ cluster
  | _ => 0xFF8 ≤ cluster

/-- The `while` loop of `readClusterChain`, with fuel equal to the
`iterations < 10000` guard of the source.  Each list element records one
loop iteration: the cluster visited and, when its byte range lies inside the
partition, the chunk pushed onto `clusters`.  With `bytesPerSector = 0` the
source computes the cluster offset through `NaN`/`Infinity`, so the bound
check is false and nothing is pushed; the `bs.bytesPerSector ≠ 0` conjunct
makes that explicit. -/
def readClusterChainAux (data fat : List Nat) (bs : FATBootSector) (fatType : FatType) :
    Nat → Nat → List (Nat × Option (List Nat))
  | 0, _ => []
  | fuel + 1, cluster =>
    if 2 ≤ cluster ∧ isEndOfChain cluster fatType = false then
      let clusterSize := bs.sectorsPerCluster * bs.bytesPerSector
      let rootDirSectors :=
        if bs.bytesPerSector = 0 then 0
        else (bs.rootEntryCount * 32 + bs.bytesPerSector - 1) / bs.bytesPerSector
      let firstDataSector := bs.reservedSectors + bs.numFATs * bs.sectorsPerFAT + rootDirSectors
      let clusterOffset := firstDataSector * bs.bytesPerSector + (cluster - 2) * clusterSize
      let chunk :=
        if bs.bytesPerSector ≠ 0 ∧ clusterOffset + clusterSize ≤ data.length then
          some (jsSlice data clusterOffset (clusterOffset + clusterSize))
        else none
      (cluster, chunk) :: readClusterChainAux data fat bs fatType fuel (getNextCluster fat cluster fatType)
    else []

/-- `readClusterChain`: the pushed chunks of the loop trace, concatenated. -/
def readClusterChain (data fat : List Nat) (startCluster : Nat) (bs : FATBootSector)
    (fatType : FatType) : List Nat :=
  ((readClusterChainAux data fat bs fatType 10000 startCluster).filterMap Prod.snd).flatten

/-- The `for` loop of `parseDirectory` (offset stepping by 32 while below
`dirData.length`), with fuel `dirData.length / 32 + 1`: the offset after
`k` iterations is `32 * k`, so the guard fails before the fuel does. -/
def parseDirectoryLoop (dirData : List Nat) (parentPath : JStr) :
    Nat → Nat → List JStr → List FATFileEntry
  | 0, _, _ => []
  | fuel + 1, offset, buf =>
    if offset < dirData.length then
      let step := parseDirectoryEntry dirData offset buf parentPath
      if step.isEnd then []
      else
        match step.entry with
        | some e => e :: parseDirectoryLoop dirData parentPath fuel (offset + 32) step.buffer
        | none => parseDirectoryLoop dirData parentPath fuel (offset + 32) step.buffer
    else []

/-- `parseDirectory`. -/
def parseDirectory (dirData : List Nat) (parentPath : JStr) : List FATFileEntry :=
  parseDirectoryLoop dirData parentPath (dirData.length / 32 + 1) 0 []

/-- The recursion of `parseDirectoryTree`, structurally on `11 - depth`:
the source returns `[]` as soon as `depth > 10` and otherwise recurses with
`depth + 1`, so the fuel `11 - depth` is exhausted exactly when the depth
guard fires. -/
def parseDirectoryTreeAux (data fat : List Nat) (bs : FATBootSector) (fatType : FatType) :
    Nat → Nat → Nat → JStr → List FATFileEntry
  | 0, _, _, _ => []
  | fuel + 1, depth, cluster, parentPath =>
    if 10 < depth then []
    else
      let dirData := readClusterChain data fat cluster bs fatType
      let entries := parseDirectory dirData parentPath
      entries.map (fun e =>
        if e.isDirectory ∧ 2 ≤ e.cluster then
          e.setChildren (some (parseDirectoryTreeAux data fat bs fatType fuel (depth + 1)
            e.cluster.toNat e.path))
        else e)

/-- `parseDirectoryTree`. -/
def parseDirectoryTree (data fat : List Nat) (cluster : Nat) (bs : FATBootSector)
    (fatType : FatType) (parentPath : JStr) (depth : Nat) : List FATFileEntry :=
  parseDirectoryTreeAux data fat bs fatType (11 - depth) depth cluster parentPath

/-- `parseFAT`.  The `try`/`catch` of the source is dead in the embedding:
every helper is total, so no error entry can be produced by it. -/
def parseFAT (data : List Nat) : FATParseResult :=
  match parseBootSector data with
  | none =>
    { valid := false, fatType := .unknown, bootSector := none, rootEntries := [],
      errors := [jstr "Invalid FAT boot sector"] }
  | some bootSector =>
    let fatType := determineFATType bootSector
    let fatOffset := bootSector.reservedSectors * bootSector.bytesPerSector
    let fatSize := bootSector.sectorsPerFAT * bootSector.bytesPerSector
    if fatOffset + fatSize > data.length then
      { valid := true, fatType, bootSector := some bootSector, rootEntries := [],
        errors := [jstr "FAT extends beyond disk image"] }
    else
      let fat := jsSlice data fatOffset (fatOffset + fatSize)
      match fatType with
      | .fat32 =>
        { valid := true, fatType, bootSector := some bootSector,
          rootEntries := parseDirectoryTree data fat bootSector.rootCluster bootSector .fat32 [] 0,
          errors := [] }
      | _ =>
        let rootDirOffset := (bootSector.reservedSectors +
          bootSector.numFATs * bootSector.sectorsPerFAT) * bootSector.bytesPerSector
        let rootDirSize := bootSector.rootEntryCount * 32
        if rootDirOffset + rootDirSize > data.length then
          { valid := true, fatType, bootSector := some bootSector, rootEntries := [],
            errors := [jstr "Root directory extends beyond disk image"] }
        else
          let rootDirData := jsSlice data rootDirOffset (rootDirOffset + rootDirSize)
          let rootEntries := (parseDirectory rootDirData []).map (fun e =>
            if e.isDirectory ∧ 2 ≤ e.cluster then
              e.setChildren (some (parseDirectoryTree data fat e.cluster.toNat bootSector
                fatType e.path 0))
            else e)
          { valid := true, fatType, bootSector := some bootSector, rootEntries, errors := [] }

/-! Observers for the directory tree, used by the depth statements. -/

/-- The children list of the first entry (empty when there is none). -/
def firstChildren : List FATFileEntry → List FATFileEntry
  | [] => []
  | e :: _ => e.children.getD []

/-- Follow `firstChildren` a given number of hops. -/
def descend : List FATFileEntry → Nat → List FATFileEntry
  | l, 0 => l
  | l, n + 1 => descend (firstChildren l) n

/-- `boundedDepth n l` holds when no chain of `children` hops of length `n`
starting from the entries of `l` reaches a nonempty list. -/
def boundedDepth : Nat → List FATFileEntry → Bool
  | 0, l => l.isEmpty
  | n + 1, l => l.all (fun e => boundedDepth n (e.children.getD []))

/-! ## Partition-table parser (`src/lib/fat32-parser.ts`, second part)

This module has its own bounds-checked readers returning 0 (or the empty
string) on short reads.  `startLBA`/`endLBA`/`sizeLBA`/`sizeBytes` are
embedded as `Int`: the source computes `endLBA = startLBA + sizeLBA - 1`
on JavaScript numbers, which is negative when `sizeLBA = 0`, and the GPT
path computes `sizeLBA = endLBA - startLBA + 1` from two unchecked u64
fields.  (`Number` rounding above 2^53 is not modelled; no statement below
depends on values of that size.) -/

def partReadUint32LE (data : List Nat) (offset : Nat) : Nat :=
  if offset + 4 > data.length then 0
  else data.getD offset 0 ||| (data.getD (offset + 1) 0 <<< 8) |||
       (data.getD (offset + 2) 0 <<< 16) ||| (data.getD (offset + 3) 0 <<< 24)

def partReadUint64LE (data : List Nat) (offset : Nat) : Nat :=
  if offset + 8 > data.length then 0
  else data.getD offset 0 ||| (data.getD (offset + 1) 0 <<< 8) |||
       (data.getD (offset + 2) 0 <<< 16) ||| (data.getD (offset + 3) 0 <<< 24) |||
       (data.getD (offset + 4) 0 <<< 32) ||| (data.getD (offset + 5) 0 <<< 40) |||
       (data.getD (offset + 6) 0 <<< 48) ||| (data.getD (offset + 7) 0 <<< 56)

/-- `readGuid`: canonical mixed-endian GUID rendering, lowercase hex. -/
def readGuid (data : List Nat) (offset : Nat) : JStr :=
  if offset + 16 > data.length then []
  else
    let p1 := toHexFixed 8 (partReadUint32LE data offset)
    let p2 := toHexFixed 4 ((data.getD (offset + 5) 0 <<< 8) ||| data.getD (offset + 4) 0)
    let p3 := toHexFixed 4 ((data.getD (offset + 7) 0 <<< 8) ||| data.getD (offset + 6) 0)
    let p4 := (jsSlice data (offset + 8) (offset + 10)).flatMap (toHexFixed 2)
    let p5 := (jsSlice data (offset + 10) (offset + 16)).flatMap (toHexFixed 2)
    p1 ++ 45 :: p2 ++ 45 :: p3 ++ 45 :: p4 ++ 45 :: p5

inductive PartTypeCode where
  | mbr (code : Nat)
  | gpt (guid : JStr)
deriving Repr, DecidableEq

structure Partition where
  index : Nat
  type : JStr
  typeCode : PartTypeCode
  startLBA : Int
  endLBA : Int
  sizeLBA : Int
  sizeBytes : Int
  bootable : Bool
  name : Option JStr := none
  guid : Option JStr := none
  filesystem : Option JStr := none

inductive PartTableKind where
  | mbr
  | gpt
  | unknown
deriving Repr, DecidableEq

structure PartitionTable where
  type : PartTableKind
  sectorSize : Nat
  partitions : List Partition
  diskGuid : Option JStr := none

/-- `MBR_PARTITION_TYPES` as an association list (insertion order kept). -/
def mbrPartitionTypes : List (Nat × JStr) :=
  [(0x00, jstr "Empty"), (0x01, jstr "FAT12"), (0x04, jstr "FAT16 (<32MB)"),
   (0x05, jstr "Extended"), (0x06, jstr "FAT16"), (0x07, jstr "NTFS/exFAT/HPFS"),
   (0x0b, jstr "FAT32 (CHS)"), (0x0c, jstr "FAT32 (LBA)"), (0x0e, jstr "FAT16 (LBA)"),
   (0x0f, jstr "Extended (LBA)"), (0x11, jstr "Hidden FAT12"),
   (0x14, jstr "Hidden FAT16 (<32MB)"), (0x16, jstr "Hidden FAT16"),
   (0x17, jstr "Hidden NTFS"), (0x1b, jstr "Hidden FAT32"), (0x1c, jstr "Hidden FAT32 (LBA)"),
   (0x1e, jstr "Hidden FAT16 (LBA)"), (0x27, jstr "Windows Recovery"),
   (0x42, jstr "Windows Dynamic"), (0x82, jstr "Linux Swap"), (0x83, jstr "Linux"),
   (0x85, jstr "Linux Extended"), (0x8e, jstr "Linux LVM"), (0xee, jstr "GPT Protective MBR"),
   (0xef, jstr "EFI System"), (0xfd, jstr "Linux RAID")]

/-- `MBR_PARTITION_TYPES[typeCode] || Unknown (0x..)`. -/
def mbrTypeName (typeCode : Nat) : JStr :=
  match mbrPartitionTypes.lookup typeCode with
  | some s => s
  | none => jstr "Unknown (0x" ++ byteToHexNoPad typeCode ++ [41]

/-- `guessFilesystem`. -/
def guessFilesystem (typeCode : Nat) : Option JStr :=
  if typeCode = 0x01 then some (jstr "FAT12")
  else if typeCode = 0x04 ∨ typeCode = 0x06 ∨ typeCode = 0x0e ∨ typeCode = 0x14 ∨
          typeCode = 0x16 ∨ typeCode = 0x1e then some (jstr "FAT16")
  else if typeCode = 0x0b ∨ typeCode = 0x0c ∨ typeCode = 0x1b ∨ typeCode = 0x1c then
    some (jstr "FAT32")
  else if typeCode = 0x07 ∨ typeCode = 0x17 then some (jstr "NTFS")
  else if typeCode = 0x83 then some (jstr "Linux (ext2/3/4)")
  else if typeCode = 0xef then some (jstr "FAT32")
  else none

/-- `parseMBRPartitionEntry`. -/
def parseMBRPartitionEntry (data : List Nat) (offset index sectorSize : Nat) :
    Option Partition :=
  if offset + 16 > data.length then none
  else
    let bootFlag := data.getD offset 0
    let typeCode := data.getD (offset + 4) 0
    if typeCode = 0x00 then none
    else
      let startLBA := partReadUint32LE data (offset + 8)
      let sizeLBA := partReadUint32LE data (offset + 12)
      some { index, type := mbrTypeName typeCode, typeCode := .mbr typeCode,
             startLBA := (startLBA : Int),
             endLBA := (startLBA : Int) + sizeLBA - 1,
             sizeLBA := (sizeLBA : Int),
             sizeBytes := (sizeLBA : Int) * sectorSize,
             bootable := bootFlag = 0x80,
             filesystem := guessFilesystem typeCode }

/-- `GPT_PARTITION_TYPES` lookup (keys are already lowercase, as is the
output of `readGuid`, so the source's `toLowerCase` is the identity here). -/
def gptPartitionTypes : List (JStr × JStr) :=
  [(jstr "00000000-0000-0000-0000-000000000000", jstr "Unused"),
   (jstr "c12a7328-f81f-11d2-ba4b-00a0c93ec93b", jstr "EFI System"),
   (jstr "024dee41-33e7-11d3-9d69-0008c781f39f", jstr "MBR Partition Scheme"),
   (jstr "e3c9e316-0b5c-4db8-817d-f92df00215ae", jstr "Microsoft Reserved"),
   (jstr "ebd0a0a2-b9e5-4433-87c0-68b6b72699c7", jstr "Microsoft Basic Data"),
   (jstr "de94bba4-06d1-4d40-a16a-bfd50179d6ac", jstr "Windows Recovery"),
   (jstr "0fc63daf-8483-4772-8e79-3d69d8477de4", jstr "Linux Filesystem"),
   (jstr "0657fd6d-a4ab-43c4-84e5-0933c84b4f4f", jstr "Linux Swap"),
   (jstr "e6d6d379-f507-44c2-a23c-238f2a3df928", jstr "Linux LVM"),
   (jstr "933ac7e1-2eb4-4f13-b844-0e14e2aef915", jstr "Linux Home"),
   (jstr "48465300-0000-11aa-aa11-00306543ecac", jstr "Apple HFS+"),
   (jstr "7c3457ef-0000-11aa-aa11-00306543ecac", jstr "Apple APFS")]

def gptTypeName (typeGuid : JStr) : JStr :=
  match gptPartitionTypes.lookup (toLowerAscii typeGuid) with
  | some s => s
  | none => jstr "Unknown (" ++ typeGuid ++ [41]

/-- `guessGPTFilesystem`. -/
def guessGPTFilesystem (typeGuid : JStr) : Option JStr :=
  let guid := toLowerAscii typeGuid
  if guid = jstr "c12a7328-f81f-11d2-ba4b-00a0c93ec93b" then some (jstr "FAT32")
  else if guid = jstr "ebd0a0a2-b9e5-4433-87c0-68b6b72699c7" then some (jstr "NTFS")
  else if guid = jstr "0fc63daf-8483-4772-8e79-3d69d8477de4" then some (jstr "ext4")
  else if guid = jstr "48465300-0000-11aa-aa11-00306543ecac" then some (jstr "HFS+")
  else if guid = jstr "7c3457ef-0000-11aa-aa11-00306543ecac" then some (jstr "APFS")
  else none

/-- `name.replace(/\0+$/, '')`: strip the trailing run of NUL code units. -/
def stripTrailingNul (s : JStr) : JStr :=
  (s.reverse.dropWhile (fun c => c = 0)).reverse

/-- One GPT entry as pushed by the loop body of `parseGPT`. -/
def mkGptPartition (data : List Nat) (sectorSize entryOffset i : Nat) : Partition :=
  let typeGuid := readGuid data entryOffset
  let partitionGuid := readGuid data (entryOffset + 16)
  let startLBA := partReadUint64LE data (entryOffset + 32)
  let endLBA := partReadUint64LE data (entryOffset + 40)
  let name := stripTrailingNul (decodeUtf16le (jsSlice data (entryOffset + 56) (entryOffset + 128)))
  { index := i + 1,
    type := gptTypeName typeGuid,
    typeCode := .gpt typeGuid,
    startLBA := (startLBA : Int),
    endLBA := (endLBA : Int),
    sizeLBA := (endLBA : Int) - startLBA + 1,
    sizeBytes := ((endLBA : Int) - startLBA + 1) * sectorSize,
    bootable := false,
    name := if name = [] then none else some name,
    guid := some partitionGuid,
    filesystem := guessGPTFilesystem typeGuid }

/-- The entry loop of `parseGPT`: `i` counts up, `count` is the number of
iterations left (at most `min(numPartitionEntries, 128)`); the loop breaks
when the next entry would overrun the buffer and skips zero-GUID entries. -/
def parseGPTEntries (data : List Nat) (sectorSize tableOffset entrySize : Nat) :
    Nat → Nat → List Partition
  | _, 0 => []
  | i, count + 1 =>
    let entryOffset := tableOffset + i * entrySize
    if entryOffset + entrySize > data.length then []
    else
      let typeGuid := readGuid data entryOffset
      if typeGuid = jstr "00000000-0000-0000-0000-000000000000" then
        parseGPTEntries data sectorSize tableOffset entrySize (i + 1) count
      else
        mkGptPartition data sectorSize entryOffset i ::
          parseGPTEntries data sectorSize tableOffset entrySize (i + 1) count

/-- `parseGPT`. -/
def parseGPT (data : List Nat) (sectorSize : Nat) : PartitionTable :=
  let gptHeaderOffset := sectorSize
  if data.length < gptHeaderOffset + 92 then
    { type := .gpt, sectorSize, partitions := [] }
  else
    let signature := decodeUtf8 (jsSlice data gptHeaderOffset (gptHeaderOffset + 8))
    if signature ≠ jstr "EFI PART" then
      { type := .unknown, sectorSize, partitions := [] }
    else
      let diskGuid := readGuid data (gptHeaderOffset + 56)
      let partitionEntryLBA := partReadUint64LE data (gptHeaderOffset + 72)
      let numPartitionEntries := partReadUint32LE data (gptHeaderOffset + 80)
      let partitionEntrySize := partReadUint32LE data (gptHeaderOffset + 84)
      let partitionTableOffset := partitionEntryLBA * sectorSize
      { type := .gpt, sectorSize,
        partitions := parseGPTEntries data sectorSize partitionTableOffset partitionEntrySize
          0 (min numPartitionEntries 128),
        diskGuid := some diskGuid }

/-- The slot loop of `parseMBR` over slots `0..3`: a slot with type code
0xEE abandons the accumulated MBR result and escalates to `parseGPT`. -/
def parseMBRSlots (data : List Nat) (sectorSize : Nat) :
    List Nat → List Partition → PartitionTable
  | [], acc => { type := .mbr, sectorSize, partitions := acc }
  | i :: rest, acc =>
    match parseMBRPartitionEntry data (446 + i * 16) (i + 1) sectorSize with
    | none => parseMBRSlots data sectorSize rest acc
    | some partition =>
      if partition.typeCode = .mbr 0xEE then parseGPT data sectorSize
      else parseMBRSlots data sectorSize rest (acc ++ [partition])

/-- `parseMBR`. -/
def parseMBR (data : List Nat) (sectorSize : Nat) : PartitionTable :=
  if data.length < 512 ∨ data.getD 510 0 ≠ 0x55 ∨ data.getD 511 0 ≠ 0xAA then
    { type := .unknown, sectorSize, partitions := [] }
  else parseMBRSlots data sectorSize [0, 1, 2, 3] []

/-- `parsePartitionTable` (the default `sectorSize = 512` is applied at call
sites). -/
def parsePartitionTable (data : List Nat) (sectorSize : Nat) : PartitionTable :=
  if data.length < 512 then { type := .unknown, sectorSize, partitions := [] }
  else parseMBR data sectorSize

/-! ### Checked semantics for the partition parser

The only partition-parser operation that can raise in JavaScript is an
out-of-bounds byte access (a `DataView` over a range outside the buffer
throws `RangeError`; the checked semantics also treats plain `data[i]`
accesses past the end as faults, which is stricter than JavaScript's
`undefined`).  The checked readers below fault on any such access *not*
dominated by the source's own guard; `parsePartitionTableC` threads the
faults through `Option`.  The theorem for the safety claim shows the checked
run never faults and agrees with the total embedding above. -/

def getByteC (data : List Nat) (i : Nat) : Option Nat :=
  if i < data.length then some (data.getD i 0) else none

def partReadUint32C (data : List Nat) (offset : Nat) : Option Nat :=
  if offset + 4 > data.length then some 0
  else do
    let b0 ← getByteC data offset
    let b1 ← getByteC data (offset + 1)
    let b2 ← getByteC data (offset + 2)
    let b3 ← getByteC data (offset + 3)
    some (b0 ||| (b1 <<< 8) ||| (b2 <<< 16) ||| (b3 <<< 24))

def partReadUint64C (data : List Nat) (offset : Nat) : Option Nat :=
  if offset + 8 > data.length then some 0
  else do
    let b0 ← getByteC data offset
    let b1 ← getByteC data (offset + 1)
    let b2 ← getByteC data (offset + 2)
    let b3 ← getByteC data (offset + 3)
    let b4 ← getByteC data (offset + 4)
    let b5 ← getByteC data (offset + 5)
    let b6 ← getByteC data (offset + 6)
    let b7 ← getByteC data (offset + 7)
    some (b0 ||| (b1 <<< 8) ||| (b2 <<< 16) ||| (b3 <<< 24) ||| (b4 <<< 32) |||
          (b5 <<< 40) ||| (b6 <<< 48) ||| (b7 <<< 56))

def readGuidC (data : List Nat) (offset : Nat) : Option JStr :=
  if offset + 16 > data.length then some []
  else do
    let w ← partReadUint32C data offset
    let b4 ← getByteC data (offset + 4)
    let b5 ← getByteC data (offset + 5)
    let b6 ← getByteC data (offset + 6)
    let b7 ← getByteC data (offset + 7)
    let p1 := toHexFixed 8 w
    let p2 := toHexFixed 4 ((b5 <<< 8) ||| b4)
    let p3 := toHexFixed 4 ((b7 <<< 8) ||| b6)
    let p4 := (jsSlice data (offset + 8) (offset + 10)).flatMap (toHexFixed 2)
    let p5 := (jsSlice data (offset + 10) (offset + 16)).flatMap (toHexFixed 2)
    some (p1 ++ 45 :: p2 ++ 45 :: p3 ++ 45 :: p4 ++ 45 :: p5)

def parseMBRPartitionEntryC (data : List Nat) (offset index sectorSize : Nat) :
    Option (Option Partition) :=
  if offset + 16 > data.length then some none
  else do
    let bootFlag ← getByteC data offset
    let typeCode ← getByteC data (offset + 4)
    if typeCode = 0x00 then some none
    else do
      let startLBA ← partReadUint32C data (offset + 8)
      let sizeLBA ← partReadUint32C data (offset + 12)
      some (some { index, type := mbrTypeName typeCode, typeCode := .mbr typeCode,
                   startLBA := (startLBA : Int),
                   endLBA := (startLBA : Int) + sizeLBA - 1,
                   sizeLBA := (sizeLBA : Int),
                   sizeBytes := (sizeLBA : Int) * sectorSize,
                   bootable := bootFlag = 0x80,
                   filesystem := guessFilesystem typeCode })

def mkGptPartitionC (data : List Nat) (sectorSize entryOffset i : Nat) : Option Partition := do
  let typeGuid ← readGuidC data entryOffset
  let partitionGuid ← readGuidC data (entryOffset + 16)
  let startLBA ← partReadUint64C data (entryOffset + 32)
  let endLBA ← partReadUint64C data (entryOffset + 40)
  let name := stripTrailingNul (decodeUtf16le (jsSlice data (entryOffset + 56) (entryOffset + 128)))
  some { index := i + 1,
         type := gptTypeName typeGuid,
         typeCode := .gpt typeGuid,
         startLBA := (startLBA : Int),
         endLBA := (endLBA : Int),
         sizeLBA := (endLBA : Int) - startLBA + 1,
         sizeBytes := ((endLBA : Int) - startLBA + 1) * sectorSize,
         bootable := false,
         name := if name = [] then none else some name,
         guid := some partitionGuid,
         filesystem := guessGPTFilesystem typeGuid }

def parseGPTEntriesC (data : List Nat) (sectorSize tableOffset entrySize : Nat) :
    Nat → Nat → Option (List Partition)
  | _, 0 => some []
  | i, count + 1 =>
    let entryOffset := tableOffset + i * entrySize
    if entryOffset + entrySize > data.length then some []
    else do
      let typeGuid ← readGuidC data entryOffset
      if typeGuid = jstr "00000000-0000-0000-0000-000000000000" then
        parseGPTEntriesC data sectorSize tableOffset entrySize (i + 1) count
      else do
        let p ← mkGptPartitionC data sectorSize entryOffset i
        let rest ← parseGPTEntriesC data sectorSize tableOffset entrySize (i + 1) count
        some (p :: rest)

def parseGPTC (data : List Nat) (sectorSize : Nat) : Option PartitionTable :=
  let gptHeaderOffset := sectorSize
  if data.length < gptHeaderOffset + 92 then
    some { type := .gpt, sectorSize, partitions := [] }
  else
    let signature := decodeUtf8 (jsSlice data gptHeaderOffset (gptHeaderOffset + 8))
    if signature ≠ jstr "EFI PART" then
      some { type := .unknown, sectorSize, partitions := [] }
    else do
      let diskGuid ← readGuidC data (gptHeaderOffset + 56)
      let partitionEntryLBA ← partReadUint64C data (gptHeaderOffset + 72)
      let numPartitionEntries ← partReadUint32C data (gptHeaderOffset + 80)
      let partitionEntrySize ← partReadUint32C data (gptHeaderOffset + 84)
      let partitionTableOffset := partitionEntryLBA * sectorSize
      let parts ← parseGPTEntriesC data sectorSize partitionTableOffset partitionEntrySize
        0 (min numPartitionEntries 128)
      some { type := .gpt, sectorSize, partitions := parts, diskGuid := some diskGuid }

def parseMBRSlotsC (data : List Nat) (sectorSize : Nat) :
    List Nat → List Partition → Option PartitionTable
  | [], acc => some { type := .mbr, sectorSize, partitions := acc }
  | i :: rest, acc => do
    let step ← parseMBRPartitionEntryC data (446 + i * 16) (i + 1) sectorSize
    match step with
    | none => parseMBRSlotsC data sectorSize rest acc
    | some partition =>
      if partition.typeCode = .mbr 0xEE then parseGPTC data sectorSize
      else parseMBRSlotsC data sectorSize rest (acc ++ [partition])

def parseMBRC (data : List Nat) (sectorSize : Nat) : Option PartitionTable :=
  if data.length < 512 then some { type := .unknown, sectorSize, partitions := [] }
  else do
    let b510 ← getByteC data 510
    let b511 ← getByteC data 511
    if b510 ≠ 0x55 ∨ b511 ≠ 0xAA then some { type := .unknown, sectorSize, partitions := [] }
    else parseMBRSlotsC data sectorSize [0, 1, 2, 3] []

def parsePartitionTableC (data : List Nat) (sectorSize : Nat) : Option PartitionTable :=
  if data.length < 512 then some { type := .unknown, sectorSize, partitions := [] }
  else parseMBRC data sectorSize

/-! ## EWF (E01) container walker (`src/components/E01Viewer.tsx`)

The parser proper takes the file bytes; the `File`/`arrayBuffer` step of the
source is the external byte-ingest surface.  This module's `readUint32LE`
and `readUint64LE` have *no* bounds guard in the source (an out-of-range
`DataView` would throw into the surrounding `try`); every call site inside
the walk is dominated by the loop guard `offset < data.length - 76`, which
keeps offsets `offset + 32 ≤ offset + 76 < data.length`, and the volume
reader checks `length ≥ 32` first, so the embedding reads with `getD`. -/

def ewfSignature : List Nat := [0x45, 0x56, 0x46, 0x09, 0x0D, 0x0A, 0xFF, 0x00]

/-- `checkSignature`. -/
def checkSignature (data : List Nat) : Bool :=
  if data.length < 8 then false
  else jsSlice data 0 8 = ewfSignature

def e01ReadUint32LE (data : List Nat) (offset : Nat) : Nat :=
  data.getD offset 0 ||| (data.getD (offset + 1) 0 <<< 8) |||
  (data.getD (offset + 2) 0 <<< 16) ||| (data.getD (offset + 3) 0 <<< 24)

def e01ReadUint64LE (data : List Nat) (offset : Nat) : Nat :=
  e01ReadUint32LE data offset ||| (e01ReadUint32LE data (offset + 4) <<< 32)

/-- `readString`: bytes from `offset` up to `maxLength`, stopping at the
buffer end or at the first NUL, decoded as UTF-8. -/
def readStringBytes (data : List Nat) (offset : Nat) : Nat → List Nat
  | 0 => []
  | n + 1 =>
    if offset < data.length ∧ data.getD offset 0 ≠ 0 then
      data.getD offset 0 :: readStringBytes data (offset + 1) n
    else []

def readString (data : List Nat) (offset maxLength : Nat) : JStr :=
  decodeUtf8 (readStringBytes data offset maxLength)

/-- `readSectionType`: 16-byte type field, lowercased then trimmed. -/
def readSectionType (data : List Nat) (offset : Nat) : JStr :=
  jsTrim (toLowerAscii (readString data offset 16))

structure E01Section where
  type : JStr
  nextOffset : Nat
  size : Nat
  data : List Nat
  offset : Nat

/-- `E01Metadata`: the ten canonical fields plus the open map of unknown
keys (`metadata[key] = value` in the source; the canonical property names
contain upper-case letters or are themselves aliases, so the lowercased
unknown keys can never collide with them). -/
structure E01Metadata where
  caseNumber : Option JStr := none
  description : Option JStr := none
  examinerName : Option JStr := none
  evidenceNumber : Option JStr := none
  notes : Option JStr := none
  acquiredDate : Option JStr := none
  systemDate : Option JStr := none
  operatingSystem : Option JStr := none
  password : Option JStr := none
  compressionLevel : Option JStr := none
  extra : List (JStr × JStr) := []

structure E01VolumeInfo where
  mediaType : Option Nat := none
  chunkCount : Option Nat := none
  sectorsPerChunk : Option Nat := none
  bytesPerSector : Option Nat := none
  sectorCount : Option Nat := none

structure E01Hash where
  md5 : Option JStr := none
  sha1 : Option JStr := none

structure E01ParseResult where
  valid : Bool
  signature : List Nat
  sections : List E01Section
  metadata : E01Metadata
  volumeInfo : Option E01VolumeInfo
  hash : Option E01Hash
  rawDiskData : Option (List Nat)
  errors : List JStr

/-- `obj[key] = value` on the open part of the metadata map: replace an
existing binding or append a new one. -/
def setAssoc (l : List (JStr × JStr)) (key value : JStr) : List (JStr × JStr) :=
  match l with
  | [] => [(key, value)]
  | (k, v) :: rest => if k = key then (k, value) :: rest else (k, v) :: setAssoc rest key value

/-- The `switch (key)` of `parseHeaderSection`: canonical aliases assign the
matching field unconditionally; the `default` branch stores the pair only
when both key and value are truthy (non-empty). -/
def applyMetaKV (md : E01Metadata) (key value : JStr) : E01Metadata :=
  if key = jstr "c" ∨ key = jstr "case" ∨ key = jstr "case_number" then
    { md with caseNumber := some value }
  else if key = jstr "n" ∨ key = jstr "name" ∨ key = jstr "description" then
    { md with description := some value }
  else if key = jstr "e" ∨ key = jstr "examiner" ∨ key = jstr "examiner_name" then
    { md with examinerName := some value }
  else if key = jstr "ev" ∨ key = jstr "evidence" ∨ key = jstr "evidence_number" then
    { md with evidenceNumber := some value }
  else if key = jstr "no" ∨ key = jstr "notes" then
    { md with notes := some value }
  else if key = jstr "a" ∨ key = jstr "acquired" ∨ key = jstr "acquired_date" then
    { md with acquiredDate := some value }
  else if key = jstr "m" ∨ key = jstr "system" ∨ key = jstr "system_date" then
    { md with systemDate := some value }
  else if key = jstr "os" ∨ key = jstr "operating_system" then
    { md with operatingSystem := some value }
  else if key = jstr "p" ∨ key = jstr "password" then
    { md with password := some value }
  else if key = jstr "r" ∨ key = jstr "compression" then
    { md with compressionLevel := some value }
  else if key ≠ [] ∧ value ≠ [] then
    { md with extra := setAssoc md.extra key value }
  else md

/-- The union of the `case` labels of the `switch`, i.e. the canonical-alias
keys that assign a field without inspecting the value. -/
def isMetaAlias (key : JStr) : Bool :=
  key = jstr "c" || key = jstr "case" || key = jstr "case_number" ||
  key = jstr "n" || key = jstr "name" || key = jstr "description" ||
  key = jstr "e" || key = jstr "examiner" || key = jstr "examiner_name" ||
  key = jstr "ev" || key = jstr "evidence" || key = jstr "evidence_number" ||
  key = jstr "no" || key = jstr "notes" ||
  key = jstr "a" || key = jstr "acquired" || key = jstr "acquired_date" ||
  key = jstr "m" || key = jstr "system" || key = jstr "system_date" ||
  key = jstr "os" || key = jstr "operating_system" ||
  key = jstr "p" || key = jstr "password" ||
  key = jstr "r" || key = jstr "compression"

/-- One line of the header body: split on TAB, falling back to `=`; with at
least two fields, dispatch trimmed-lowercased key and rejoined trimmed
value through the switch. -/
def processHeaderLine (md : E01Metadata) (line : JStr) : E01Metadata :=
  let parts0 := splitOnChar 9 line
  let parts := if parts0.length < 2 then splitOnChar 61 line else parts0
  if 2 ≤ parts.length then
    applyMetaKV md (toLowerAscii (jsTrim (parts.getD 0 [])))
      (jsTrim (joinWithChar 61 (parts.drop 1)))
  else md

/-- `decompressZlib` ∘ `inflateRaw`: `inflateRaw` of the source returns its
input unchanged on every path, so the composite is `data.slice(2, -4)`. -/
def decompressZlib (data : List Nat) : List Nat :=
  jsSlice data 2 (data.length - 4)

/-- `parseHeaderSection`. -/
def parseHeaderSection (sectionData : List Nat) : E01Metadata :=
  let textData :=
    if 2 < sectionData.length ∧ sectionData.getD 0 0 = 0x78 then decompressZlib sectionData
    else sectionData
  let text := decodeUtf8 textData
  (splitCRLFRuns text).foldl processHeaderLine {}

/-- `parseVolumeSection`. -/
def parseVolumeSection (sectionData : List Nat) : E01VolumeInfo :=
  if 32 ≤ sectionData.length then
    { mediaType := some (sectionData.getD 0 0),
      chunkCount := some (e01ReadUint32LE sectionData 4),
      sectorsPerChunk := some (e01ReadUint32LE sectionData 8),
      bytesPerSector := some (e01ReadUint32LE sectionData 12),
      sectorCount := some (e01ReadUint64LE sectionData 16) }
  else {}

/-- `parseHashSection`. -/
def parseHashSection (sectionData : List Nat) : E01Hash :=
  { md5 := if 16 ≤ sectionData.length then
      some ((jsSlice sectionData 0 16).flatMap (toHexFixed 2)) else none,
    sha1 := if 36 ≤ sectionData.length then
      some ((jsSlice sectionData 16 36).flatMap (toHexFixed 2)) else none }

/-- Spread override for one optional field: the overriding object's value
wins when present. -/
def overrideField (newer older : Option JStr) : Option JStr :=
  match newer with
  | some v => some v
  | none => older

/-- `{...old, ...new}` on metadata objects: fields present in `new` win;
the open maps are merged key by key. -/
def mergeMetadata (old new : E01Metadata) : E01Metadata :=
  { caseNumber := overrideField new.caseNumber old.caseNumber,
    description := overrideField new.description old.description,
    examinerName := overrideField new.examinerName old.examinerName,
    evidenceNumber := overrideField new.evidenceNumber old.evidenceNumber,
    notes := overrideField new.notes old.notes,
    acquiredDate := overrideField new.acquiredDate old.acquiredDate,
    systemDate := overrideField new.systemDate old.systemDate,
    operatingSystem := overrideField new.operatingSystem old.operatingSystem,
    password := overrideField new.password old.password,
    compressionLevel := overrideField new.compressionLevel old.compressionLevel,
    extra := new.extra.foldl (fun acc kv => setAssoc acc kv.1 kv.2) old.extra }

/-- The `if`/`else if` dispatch of the walk body on the section type:
returns the updated metadata / volume / hash accumulators, the chunk pushed
for `sectors`/`data` sections, and whether the type is `done`. -/
def dispatchSection (md : E01Metadata) (vi : Option E01VolumeInfo) (h : Option E01Hash)
    (t : JStr) (sd : List Nat) :
    E01Metadata × Option E01VolumeInfo × Option E01Hash × Option (List Nat) × Bool :=
  if t = jstr "header" ∨ t = jstr "header2" then
    (mergeMetadata md (parseHeaderSection sd), vi, h, none, false)
  else if t = jstr "volume" ∨ t = jstr "disk" then
    (md, some (parseVolumeSection sd), h, none, false)
  else if t = jstr "sectors" ∨ t = jstr "data" then
    (md, vi, h, some sd, false)
  else if t = jstr "hash" ∨ t = jstr "digest" then
    (md, vi, some (parseHashSection sd), none, false)
  else (md, vi, h, none, t = jstr "done")

structure E01WalkOut where
  sections : List E01Section
  metadata : E01Metadata
  volumeInfo : Option E01VolumeInfo
  hash : Option E01Hash
  chunks : List (List Nat)

/-- The section-walk `while` loop of `parseE01`.  The guard
`offset < data.length - 76` of the source is integer arithmetic, written
here as `offset + 76 < data.length`.  Each continuing iteration moves the
offset up by at least 76 (payload advance) or to a strictly larger
`nextOffset`, and the guard keeps it below `data.length`, so the loop runs
fewer than `data.length` times and the fuel `data.length + 1` used by
`parseE01` never runs out before the guard fails. -/
def sectionWalk (data : List Nat) :
    Nat → Nat → E01Metadata → Option E01VolumeInfo → Option E01Hash → E01WalkOut
  | 0, _, md, vi, h => ⟨[], md, vi, h, []⟩
  | fuel + 1, offset, md, vi, h =>
    if offset + 76 < data.length then
      let sectionType := readSectionType data offset
      let nextOffset := e01ReadUint64LE data (offset + 16)
      let sectionSize := e01ReadUint64LE data (offset + 24)
      if sectionType = [] ∨ sectionSize = 0 then ⟨[], md, vi, h, []⟩
      else
        let dataOffset := offset + 76
        let safeDataSize := min sectionSize (data.length - dataOffset)
        let sectionData := jsSlice data dataOffset (dataOffset + safeDataSize)
        let sec : E01Section := ⟨sectionType, nextOffset, sectionSize, sectionData, offset⟩
        match dispatchSection md vi h sectionType sectionData with
        | (md2, vi2, h2, chunk, isDone) =>
          if isDone then ⟨[sec], md2, vi2, h2, chunk.toList⟩
          else
            let offset2 := if offset < nextOffset then nextOffset else dataOffset + safeDataSize
            if offset2 ≤ offset then ⟨[sec], md2, vi2, h2, chunk.toList⟩
            else
              let rest := sectionWalk data fuel offset2 md2 vi2 h2
              ⟨sec :: rest.sections, rest.metadata, rest.volumeInfo, rest.hash,
               chunk.toList ++ rest.chunks⟩
    else ⟨[], md, vi, h, []⟩

/-- `parseE01`. -/
def parseE01 (data : List Nat) : E01ParseResult :=
  if checkSignature data = false then
    { valid := false, signature := List.replicate 8 0, sections := [], metadata := {},
      volumeInfo := none, hash := none, rawDiskData := none,
      errors := [jstr "Invalid EWF signature. This may not be a valid E01 file."] }
  else
    let w := sectionWalk data (data.length + 1) 13 {} none none
    { valid := true, signature := jsSlice data 0 8, sections := w.sections,
      metadata := w.metadata, volumeInfo := w.volumeInfo, hash := w.hash,
      rawDiskData := if w.chunks.isEmpty then none else some w.chunks.flatten,
      errors := [] }

/-! ## Concrete inputs used by the statements -/

/-- A 32-byte short directory entry: 8 name bytes, 3 extension bytes,
attribute byte, 14 reserved/time bytes (including the high cluster half at
20..21, zero here), low cluster half at 26..27, and the 4 size bytes. -/
def dirEntry32 (name ext : List Nat) (attr clusterLo : Nat) (size4 : List Nat) : List Nat :=
  name ++ ext ++ [attr] ++ List.replicate 14 0 ++ [clusterLo, 0] ++ size4

/-- The minimal EWF of the specification: signature, five zero segment
bytes, and one 76-byte descriptor `type="done"`, `next_offset=0`,
`size=76`, empty payload; 89 bytes in total. -/
def c1input : List Nat :=
  ewfSignature ++ List.replicate 5 0 ++
    ([0x64, 0x6F, 0x6E, 0x65] ++ List.replicate 12 0 ++
     List.replicate 8 0 ++
     [76, 0, 0, 0, 0, 0, 0, 0] ++
     List.replicate 40 0 ++
     List.replicate 4 0)

/-- A FAT32 table whose entry for cluster 2 (bytes 8..11) points back to
cluster 2: the crafted self-loop of the cycle-safety scenario. -/
def selfLoopFat : List Nat := [0, 0, 0, 0, 0, 0, 0, 0, 2, 0, 0, 0]

/-- One data byte: with the boot parameters below, cluster 2 occupies
exactly the byte range `[0, 1)` of this buffer. -/
def selfLoopData : List Nat := [0xAB]

/-- Boot parameters giving cluster size 1 and first data sector 0. -/
def selfLoopBS : FATBootSector :=
  { bytesPerSector := 1, sectorsPerCluster := 1, reservedSectors := 0, numFATs := 0,
    rootEntryCount := 0, totalSectors := 0, sectorsPerFAT := 0, rootCluster := 0,
    volumeLabel := [], fsType := [] }

/-- FAT16 image, 960 bytes: boot sector (bytes/sector 32, 1 sector/cluster,
16 reserved sectors, 1 FAT of 2 sectors, 1 root entry, 5000 total sectors,
so 4981 clusters ⇒ FAT16), a FAT at 512..576 marking clusters 2..13 end of
chain, a one-entry root directory at 576..608 whose entry `SUB` points to
cluster 2, and clusters 2..12 at 608..960, each one directory entry pointing
to the next cluster: 12 nested directory levels in total. -/
def c4img : List Nat :=
  (List.replicate 11 0 ++ [32, 0] ++ [1] ++ [16, 0] ++ [1] ++ [1, 0] ++ [0x88, 0x13] ++
    [0] ++ [2, 0] ++ List.replicate 486 0 ++ [0x55, 0xAA]) ++
  ([0, 0, 0, 0] ++ (List.replicate 12 [0xF8, 0xFF]).flatten ++ List.replicate 36 0) ++
  dirEntry32 [0x53, 0x55, 0x42, 0x20, 0x20, 0x20, 0x20, 0x20] [0x20, 0x20, 0x20] 0x10 2
    [0, 0, 0, 0] ++
  ((List.range 11).map (fun k =>
    dirEntry32 [0x53, 0x55, 0x42, 0x20, 0x20, 0x20, 0x20, 0x20] [0x20, 0x20, 0x20] 0x10 (3 + k)
      [0, 0, 0, 0])).flatten

/-- A 512-byte MBR whose first slot has type code 0x83 (Linux) with
`start_lba = 0` and `size_lba = 0`; boot signature present, other slots
empty. -/
def c5data : List Nat :=
  List.replicate 446 0 ++
  [0x00, 0, 0, 0, 0x83, 0, 0, 0, 0, 0, 0, 0, 0, 0, 0, 0] ++
  List.replicate 48 0 ++ [0x55, 0xAA]

/-- A 16-byte MBR slot with type 0x83, `start_lba = 5`, `size_lba = 3`. -/
def c5wData : List Nat := [0x80, 0, 0, 0, 0x83, 0, 0, 0, 5, 0, 0, 0, 3, 0, 0, 0]

/-- Directory data of three 32-byte entries: a long-name slot carrying the
single character `x` (ordinal 1), then a `.` entry, then a short entry
`FILE` with no extension. -/
def c6dirData : List Nat :=
  ([0x41, 0x78, 0x00] ++ List.replicate 8 0 ++ [0x0F] ++ List.replicate 20 0) ++
  dirEntry32 (0x2E :: List.replicate 7 0x20) [0x20, 0x20, 0x20] 0x10 0 [0, 0, 0, 0] ++
  dirEntry32 [0x46, 0x49, 0x4C, 0x45, 0x20, 0x20, 0x20, 0x20] [0x20, 0x20, 0x20] 0x20 0
    [0, 0, 0, 0]

/-- A single 32-byte `.` directory entry. -/
def c6dotEntry : List Nat :=
  dirEntry32 (0x2E :: List.replicate 7 0x20) [0x20, 0x20, 0x20] 0x10 0 [0, 0, 0, 0]

/-- The header body `c<TAB>`: key `c` (an alias of `case_number`) with an
empty value. -/
def c7bytes : List Nat := [0x63, 0x09]

/-- A short directory entry `SUBDIR` with the directory attribute (0x10)
set and the on-disk size field equal to 1. -/
def c8data : List Nat :=
  dirEntry32 [0x53, 0x55, 0x42, 0x44, 0x49, 0x52, 0x20, 0x20] [0x20, 0x20, 0x20] 0x10 3
    [1, 0, 0, 0]

/-- A short directory entry decodes as a dot entry: the 32 bytes are in
range, the first byte is neither the terminator nor the deleted marker, the
attribute low nibble is not the long-name marker, and the trimmed short
name is `.` or `..`.  (Volume-label dot entries also drop the entry and
keep the buffer, so the predicate need not exclude them.) -/
def isDotAt (data : List Nat) (offset : Nat) : Bool :=
  decide (offset + 32 ≤ data.length) &&
  decide (data.getD offset 0 ≠ 0x00) && decide (data.getD offset 0 ≠ 0xE5) &&
  decide ((data.getD (offset + 11) 0 &&& 0x0F) ≠ 0x0F) &&
  (decide (shortNameAt data offset = jstr ".") || decide (shortNameAt data offset = jstr ".."))

/-! ## Theorems -/

set_option maxRecDepth 200000
set_option maxHeartbeats 2000000

/-- C1: for the 89-byte minimal EWF (signature, five zero bytes, one
76-byte `done` descriptor with `size = 76`), the claimed result is one
emitted `done` section; the walk guard `offset < data.length - 76` at
offset 13 requires `13 < 89 - 76 = 13` and fails, so the code emits *no*
section at all (while still reporting `valid = true` and no raw disk
data).  The guard admits a descriptor only when strictly more than 76
bytes remain, contradicting the walk comment (the 76-byte minimum section
header) and the specification scenario. -/
theorem spec_c1_minimal_ewf_eval :
    (parseE01 c1input).valid = true ∧
    (parseE01 c1input).sections.length = 0 ∧
    (parseE01 c1input).rawDiskData = none ∧
    c1input.length = 89 := by
  decide

/-- C5 counterexample: `parsePartitionTable` on a 512-byte MBR whose only
slot has type 0x83 and `size_lba = 0` emits exactly one partition, and for
it `start_lba ≤ end_lba` is false (`end_lba = start_lba - 1 = -1`). -/
theorem spec_c5_counterexample :
    (parsePartitionTable c5data 512).partitions.map
      (fun p => decide (p.startLBA ≤ p.endLBA)) = [false] := by
  decide

/-- C6 counterexample: a pending long name (`x`) accumulated before a `.`
entry attaches to the *next* short entry (`FILE`), so the buffer was not
cleared when the dot entry was dropped: the emitted entry is named `x`,
not `FILE`. -/
theorem spec_c6_counterexample :
    (parseDirectory c6dirData []).map FATFileEntry.name = [jstr "x"] := by
  decide

/-- C7 counterexample: the header line `c<TAB>` has an empty value, yet the
canonical-alias branch assigns `caseNumber` unconditionally, creating a
metadata entry with the empty string as value. -/
theorem spec_c7_counterexample :
    (parseHeaderSection c7bytes).caseNumber = some [] := by
  decide

/-- C8 counterexample: a short entry with the directory attribute (0x10)
set and on-disk size field 1 decodes to an entry with `isDirectory = true`
and `size = 1`, not 0. -/
theorem spec_c8_counterexample :
    (parseDirectoryEntry c8data 0 [] []).entry.map (fun e => (e.isDirectory, e.size)) =
      some (true, 1) := by
  decide

/-- C10: whenever the FAT-entry byte range of a cluster lies outside the
FAT buffer, `getNextCluster` returns the end-of-chain sentinel of the
variant (0x0FFFFFFF for FAT32, 0xFFFF for FAT16, 0xFFF for FAT12), and
each sentinel satisfies `isEndOfChain`, so an out-of-range reference always
terminates the chain. -/
theorem spec_c10_oob_lookup_end_of_chain (fat : List Nat) (cluster : Nat) :
    (cluster * 4 + 4 > fat.length →
      getNextCluster fat cluster .fat32 = 0x0FFFFFFF ∧
      isEndOfChain (getNextCluster fat cluster .fat32) .fat32 = true) ∧
    (cluster * 2 + 2 > fat.length →
      getNextCluster fat cluster .fat16 = 0xFFFF ∧
      isEndOfChain (getNextCluster fat cluster .fat16) .fat16 = true) ∧
    (cluster + cluster / 2 + 2 > fat.length →
      getNextCluster fat cluster .fat12 = 0xFFF ∧
      isEndOfChain (getNextCluster fat cluster .fat12) .fat12 = true) := by
  refine ⟨fun h => ?_, fun h => ?_, fun h => ?_⟩ <;>
    simp [getNextCluster, isEndOfChain, h]

theorem spec_c10_oob_lookup_end_of_chain_witness :
    getNextCluster [] 0 .fat32 = 0x0FFFFFFF ∧
    getNextCluster [] 0 .fat16 = 0xFFFF ∧
    getNextCluster [] 0 .fat12 = 0xFFF := by
  refine ⟨((spec_c10_oob_lookup_end_of_chain [] 0).1 (by decide)).1,
    ((spec_c10_oob_lookup_end_of_chain [] 0).2.1 (by decide)).1,
    ((spec_c10_oob_lookup_end_of_chain [] 0).2.2 (by decide)).1⟩

/-- C5 amended: an MBR-path partition with `size_lba ≥ 1` does satisfy
`start_lba ≤ end_lba` (with `end_lba = start_lba + size_lba - 1`); the
guarantee fails exactly for `size_lba = 0` slots (see the counterexample),
and the GPT path copies `start_lba`/`end_lba` verbatim with no ordering
check, so no such bound holds there. -/
theorem spec_c5_start_le_end_amended (data : List Nat) (offset index sectorSize : Nat)
    (p : Partition) (h : parseMBRPartitionEntry data offset index sectorSize = some p)
    (hs : (1 : Int) ≤ p.sizeLBA) : p.startLBA ≤ p.endLBA := by
  unfold parseMBRPartitionEntry at h
  dsimp only at h
  split_ifs at h
  all_goals first
    | exact Option.noConfusion h
    | (obtain rfl := Option.some.inj h; dsimp only at hs ⊢; omega)

theorem spec_c5_start_le_end_amended_witness :
    (parseMBRPartitionEntry c5wData 0 1 512).map
      (fun p => decide (p.startLBA ≤ p.endLBA)) = some true := by
  have hs2 : (parseMBRPartitionEntry c5wData 0 1 512).map
      (fun p => decide ((1 : Int) ≤ p.sizeLBA)) = some true := by decide
  cases hp : parseMBRPartitionEntry c5wData 0 1 512 with
  | none => rw [hp] at hs2; exact Option.noConfusion hs2
  | some p =>
    rw [hp] at hs2
    have h1 := spec_c5_start_le_end_amended c5wData 0 1 512 p hp
      (of_decide_eq_true (Option.some.inj hs2))
    exact congrArg some (decide_eq_true h1)

/-- C6 amended: a dot entry (`.` or `..`) is dropped with no entry emitted,
but the long-name buffer is *kept*, not cleared: the clearing only happens
when a non-dot short entry consumes the buffer, so a pending long name
accumulated before a dot entry survives and attaches to the next non-dot
short entry (see the counterexample). -/
theorem spec_c6_dot_dropped_buffer_kept (data : List Nat) (offset : Nat) (buf : List JStr)
    (path : JStr) (h : isDotAt data offset = true) :
    (parseDirectoryEntry data offset buf path).entry = none ∧
    (parseDirectoryEntry data offset buf path).buffer = buf := by
  simp only [isDotAt, Bool.and_eq_true, Bool.or_eq_true, decide_eq_true_eq] at h
  obtain ⟨⟨⟨⟨hlen, hb0⟩, hb5⟩, hattr⟩, hdot⟩ := h
  unfold parseDirectoryEntry
  dsimp only
  split_ifs <;> first | exact ⟨rfl, rfl⟩ | omega | tauto

theorem spec_c6_dot_dropped_buffer_kept_witness :
    (parseDirectoryEntry c6dotEntry 0 [jstr "q"] []).entry = none ∧
    (parseDirectoryEntry c6dotEntry 0 [jstr "q"] []).buffer = [jstr "q"] :=
  spec_c6_dot_dropped_buffer_kept c6dotEntry 0 [jstr "q"] [] (by decide)

/-- C7 amended: a parsed header line creates no metadata entry when its key
is empty, or when its key is *not* one of the canonical aliases and its
value is empty; but a canonical-alias key assigns its field even for an
empty value (see the counterexample). -/
theorem spec_c7_empty_kv_amended (md : E01Metadata) (key value : JStr)
    (h : key = [] ∨ (isMetaAlias key = false ∧ value = [])) :
    applyMetaKV md key value = md := by
  rcases h with hk | ⟨ha, hv⟩
  · subst hk
    unfold applyMetaKV
    rw [if_neg (by decide), if_neg (by decide), if_neg (by decide), if_neg (by decide),
        if_neg (by decide), if_neg (by decide), if_neg (by decide), if_neg (by decide),
        if_neg (by decide), if_neg (by decide), if_neg (by simp)]
  · subst hv
    unfold applyMetaKV
    rw [if_neg (fun hc => by rcases hc with h | h | h <;> (subst h; exact absurd ha (by decide))),
        if_neg (fun hc => by rcases hc with h | h | h <;> (subst h; exact absurd ha (by decide))),
        if_neg (fun hc => by rcases hc with h | h | h <;> (subst h; exact absurd ha (by decide))),
        if_neg (fun hc => by rcases hc with h | h | h <;> (subst h; exact absurd ha (by decide))),
        if_neg (fun hc => by rcases hc with h | h <;> (subst h; exact absurd ha (by decide))),
        if_neg (fun hc => by rcases hc with h | h | h <;> (subst h; exact absurd ha (by decide))),
        if_neg (fun hc => by rcases hc with h | h | h <;> (subst h; exact absurd ha (by decide))),
        if_neg (fun hc => by rcases hc with h | h <;> (subst h; exact absurd ha (by decide))),
        if_neg (fun hc => by rcases hc with h | h <;> (subst h; exact absurd ha (by decide))),
        if_neg (fun hc => by rcases hc with h | h <;> (subst h; exact absurd ha (by decide))),
        if_neg (by simp)]

theorem spec_c7_empty_kv_amended_witness :
    applyMetaKV {} (jstr "foo") [] = ({} : E01Metadata) :=
  spec_c7_empty_kv_amended {} (jstr "foo") [] (Or.inr ⟨by decide, rfl⟩)

/-- C8 amended: the size of every decoded short entry, directory or not, is
the u32 read verbatim at entry offset 28; it is 0 for a directory only when
the stored field is 0 (see the counterexample). -/
theorem spec_c8_size_verbatim_amended (data : List Nat) (offset : Nat) (buf : List JStr)
    (path : JStr) (e : FATFileEntry)
    (h : (parseDirectoryEntry data offset buf path).entry = some e) :
    e.size = fatReadUint32LE data (offset + 28) := by
  unfold parseDirectoryEntry at h
  dsimp only at h
  split_ifs at h
  all_goals first
    | exact Option.noConfusion h
    | (obtain rfl := Option.some.inj h; rfl)

theorem spec_c8_size_verbatim_amended_witness :
    (parseDirectoryEntry c8data 0 [] []).entry.map FATFileEntry.size =
      some (fatReadUint32LE c8data 28) := by
  cases hp : (parseDirectoryEntry c8data 0 [] []).entry with
  | none =>
    have hs : (parseDirectoryEntry c8data 0 [] []).entry.isSome = true := by decide
    rw [hp] at hs
    exact Bool.noConfusion hs
  | some e =>
    exact congrArg some (spec_c8_size_verbatim_amended c8data 0 [] [] e hp)

theorem readClusterChainAux_length_le (data fat : List Nat) (bs : FATBootSector)
    (ft : FatType) : ∀ (fuel cluster : Nat),
    (readClusterChainAux data fat bs ft fuel cluster).length ≤ fuel := by
  intro fuel
  induction fuel with
  | zero => intro c; simp [readClusterChainAux]
  | succ n ih =>
    intro c
    rw [readClusterChainAux]
    split
    · exact Nat.succ_le_succ (ih _)
    · simp

theorem selfLoop_aux_eq : ∀ n : Nat,
    readClusterChainAux selfLoopData selfLoopFat selfLoopBS .fat32 n 2 =
      List.replicate n (2, some [0xAB]) := by
  intro n
  induction n with
  | zero => rfl
  | succ k ih =>
    have hstep : readClusterChainAux selfLoopData selfLoopFat selfLoopBS .fat32 (k + 1) 2 =
        (2, some [0xAB]) :: readClusterChainAux selfLoopData selfLoopFat selfLoopBS .fat32 k 2 :=
      rfl
    rw [hstep, ih, List.replicate_succ]

theorem filterMap_snd_replicate (n : Nat) :
    (List.replicate n ((2 : Nat), some [(0xAB : Nat)])).filterMap Prod.snd =
      List.replicate n [0xAB] := by
  induction n with
  | zero => rfl
  | succ k ih => simp [List.replicate_succ, List.filterMap_cons, ih]

theorem flatten_replicate_length (n : Nat) :
    (List.flatten (List.replicate n [(0xAB : Nat)])).length = n := by
  induction n with
  | zero => rfl
  | succ k ih => simp [List.replicate_succ, ih]

/-- C2: every cluster-chain walk visits at most 10000 clusters — the loop
trace of `readClusterChain` (whose length counts the loop iterations, i.e.
the visited clusters) is bounded by the 10000 fuel for every partition
buffer, FAT, boot-sector parameters and start cluster; termination is by
construction of the embedding, mirroring the `iterations < 10000` guard.
On the crafted FAT32 table whose entry for cluster 2 points back to
cluster 2, the chain from cluster 2 stops at the guard and yields a
non-empty bounded buffer of exactly 10000 concatenated one-byte clusters. -/
theorem spec_c2_cluster_chain_bounded :
    (∀ (data fat : List Nat) (startCluster : Nat) (bs : FATBootSector) (ft : FatType),
      (readClusterChainAux data fat bs ft 10000 startCluster).length ≤ 10000) ∧
    readClusterChain selfLoopData selfLoopFat 2 selfLoopBS .fat32 ≠ [] ∧
    (readClusterChain selfLoopData selfLoopFat 2 selfLoopBS .fat32).length = 10000 := by
  have hlen : (readClusterChain selfLoopData selfLoopFat 2 selfLoopBS .fat32).length = 10000 := by
    rw [readClusterChain, selfLoop_aux_eq, filterMap_snd_replicate, flatten_replicate_length]
  refine ⟨fun data fat s bs ft => readClusterChainAux_length_le data fat bs ft 10000 s, ?_, hlen⟩
  intro h
  rw [h] at hlen
  exact absurd hlen (by decide)

theorem sectionWalk_offsets (data : List Nat) (fuel : Nat) : ∀ (offset : Nat) (md : E01Metadata)
    (vi : Option E01VolumeInfo) (hh : Option E01Hash),
    (∀ s ∈ (sectionWalk data fuel offset md vi hh).sections, offset ≤ s.offset) ∧
    ((sectionWalk data fuel offset md vi hh).sections.map E01Section.offset).Pairwise (· < ·) := by
  induction fuel with
  | zero =>
    intro offset md vi hh
    exact ⟨fun s hs => absurd hs (by simp [sectionWalk]), by simp [sectionWalk]⟩
  | succ n ih =>
    intro offset md vi hh
    simp only [sectionWalk]
    split
    case isFalse => exact ⟨fun s hs => absurd hs (by simp), by simp⟩
    case isTrue hg =>
      split
      case isTrue => exact ⟨fun s hs => absurd hs (by simp), by simp⟩
      case isFalse hts =>
        rcases hd : dispatchSection md vi hh (readSectionType data offset)
            (jsSlice data (offset + 76)
              (offset + 76 + min (e01ReadUint64LE data (offset + 24))
                (data.length - (offset + 76)))) with ⟨md2, vi2, h2, chunk, isDone⟩
        dsimp only
        split
        case isTrue =>
          refine ⟨fun s hs => ?_, by simp⟩
          rw [List.mem_singleton] at hs
          subst hs
          exact Nat.le_refl offset
        case isFalse =>
          split <;> split
          all_goals first
            | (refine ⟨fun s hs => ?_, by simp⟩
               rw [List.mem_singleton] at hs
               subst hs
               exact Nat.le_refl offset)
            | (rename_i hle
               have hlt := Nat.lt_of_not_le hle
               obtain ⟨ihb, ihp⟩ := ih _ md2 vi2 h2
               constructor
               · intro s hs
                 rcases List.mem_cons.mp hs with rfl | hs2
                 · exact Nat.le_refl offset
                 · exact Nat.le_trans (Nat.le_of_lt hlt) (ihb s hs2)
               · rw [List.map_cons, List.pairwise_cons]
                 refine ⟨fun y hy => ?_, ihp⟩
                 rcases List.mem_map.mp hy with ⟨s, hs2, rfl⟩
                 exact Nat.lt_of_lt_of_le hlt (ihb s hs2))

/-- C3: for every input, the offsets of the emitted sections of `parseE01`
are strictly increasing: a continuing iteration moves to a strictly larger
offset (forward jump or advance past the payload) and the walk stops as
soon as the new offset is not strictly larger than the section's own. -/
theorem spec_c3_section_offsets_strict_mono (data : List Nat) :
    ((parseE01 data).sections.map E01Section.offset).Pairwise (· < ·) := by
  unfold parseE01
  split
  · simp
  · exact (sectionWalk_offsets data (data.length + 1) 13 {} none none).2

theorem children_setChildren (e : FATFileEntry) (ch : Option (List FATFileEntry)) :
    (e.setChildren ch).children = ch := by
  cases e
  rfl

theorem boundedDepth_nil : ∀ n : Nat, boundedDepth n [] = true := by
  intro n
  cases n <;> simp [boundedDepth]

theorem boundedDepth_mono : ∀ (n : Nat) (l : List FATFileEntry),
    boundedDepth n l = true → boundedDepth (n + 1) l = true := by
  intro n
  induction n with
  | zero =>
    intro l h
    simp only [boundedDepth, List.isEmpty_iff] at h
    subst h
    exact boundedDepth_nil 1
  | succ k ih =>
    intro l h
    rw [boundedDepth] at h ⊢
    rw [List.all_eq_true] at h ⊢
    intro e he
    exact ih _ (h e he)

theorem parseDirectoryEntry_children_none (data : List Nat) (offset : Nat) (buf : List JStr)
    (path : JStr) (e : FATFileEntry)
    (h : (parseDirectoryEntry data offset buf path).entry = some e) : e.children = none := by
  unfold parseDirectoryEntry at h
  dsimp only at h
  split_ifs at h
  all_goals first
    | exact Option.noConfusion h
    | (obtain rfl := Option.some.inj h; rfl)

theorem parseDirectoryLoop_children_none (dirData : List Nat) (parentPath : JStr) :
    ∀ (fuel offset : Nat) (buf : List JStr) (e : FATFileEntry),
    e ∈ parseDirectoryLoop dirData parentPath fuel offset buf → e.children = none := by
  intro fuel
  induction fuel with
  | zero => intro offset buf e he; simp [parseDirectoryLoop] at he
  | succ n ih =>
    intro offset buf e he
    rw [parseDirectoryLoop] at he
    split at he
    case isFalse => simp at he
    case isTrue =>
      dsimp only at he
      split at he
      case isTrue => simp at he
      case isFalse =>
        split at he
        case h_1 e2 hstep =>
          rcases List.mem_cons.mp he with rfl | he2
          · exact parseDirectoryEntry_children_none dirData offset buf parentPath e hstep
          · exact ih _ _ e he2
        case h_2 hstep => exact ih _ _ e he

theorem boundedDepth_treeAux (data fat : List Nat) (bs : FATBootSector) (ft : FatType) :
    ∀ (fuel depth cluster : Nat) (path : JStr),
    boundedDepth fuel (parseDirectoryTreeAux data fat bs ft fuel depth cluster path) = true := by
  intro fuel
  induction fuel with
  | zero => intro depth cluster path; rfl
  | succ n ih =>
    intro depth cluster path
    rw [parseDirectoryTreeAux]
    split
    case isTrue => exact boundedDepth_nil (n + 1)
    case isFalse =>
      rw [boundedDepth, List.all_eq_true]
      intro e he
      dsimp only at he
      rcases List.mem_map.mp he with ⟨e0, he0, rfl⟩
      split
      case isTrue => rw [children_setChildren]; exact ih (depth + 1) e0.cluster.toNat e0.path
      case isFalse =>
        unfold parseDirectory at he0
        rw [parseDirectoryLoop_children_none _ _ _ _ _ e0 he0]
        exact boundedDepth_nil n

theorem boundedDepth_parseFAT (data : List Nat) :
    boundedDepth 12 (parseFAT data).rootEntries = true := by
  unfold parseFAT
  cases hbs : parseBootSector data with
  | none => exact boundedDepth_nil 12
  | some bs =>
    dsimp only
    split
    case isTrue => exact boundedDepth_nil 12
    case isFalse =>
      cases hft : determineFATType bs
      case fat32 =>
        dsimp only
        exact boundedDepth_mono 11 _ (boundedDepth_treeAux data _ bs .fat32 11 0 bs.rootCluster [])
      all_goals
        dsimp only
        split
        case isTrue => exact boundedDepth_nil 12
        case isFalse =>
          rw [boundedDepth, List.all_eq_true]
          intro e he
          rcases List.mem_map.mp he with ⟨e0, he0, rfl⟩
          split
          case isTrue =>
            rw [children_setChildren]
            exact boundedDepth_treeAux data _ bs _ 11 0 e0.cluster.toNat e0.path
          case isFalse =>
            unfold parseDirectory at he0
            rw [parseDirectoryLoop_children_none _ _ _ _ _ e0 he0]
            exact boundedDepth_nil 11

/-- C4 counterexample: on a 960-byte FAT16 image with 12 nested directory
levels (`c4img`), eleven successive `children` hops below the root listing
still reach a nonempty list, i.e. the result nests 12 entry levels — more
than the claimed 10-level bound.  The FAT12/16 path re-enters the tree walk
at depth 0 under the manually parsed root, and the depth guard only stops
calls with depth > 10, so depths 0..10 all produce entries. -/
theorem spec_c4_counterexample :
    (descend (parseFAT c4img).rootEntries 11).length = 1 := by
  decide

/-- C4 amended: a recursive tree-walk call at depth > 10 returns an empty
children list (not an error), and consequently the nesting of the tree
returned by `parseFAT` is bounded: no chain of 12 `children` hops from the
root entries reaches a nonempty list (12 = the root listing plus the
recursion depths 0..10; the FAT32 path uses one level fewer since its root
is itself the depth-0 call). -/
theorem spec_c4_depth_cap_amended :
    (∀ (data fat : List Nat) (cluster : Nat) (bs : FATBootSector) (ft : FatType)
      (parentPath : JStr) (depth : Nat), 10 < depth →
      parseDirectoryTree data fat cluster bs ft parentPath depth = []) ∧
    (∀ data : List Nat, boundedDepth 12 (parseFAT data).rootEntries = true) := by
  constructor
  · intro data fat cluster bs ft parentPath depth hd
    unfold parseDirectoryTree
    rw [show 11 - depth = 0 by omega]
    rfl
  · exact boundedDepth_parseFAT

theorem spec_c4_depth_cap_amended_witness :
    parseDirectoryTree [] [] 2 selfLoopBS .fat32 [] 11 = [] ∧
    boundedDepth 12 (parseFAT []).rootEntries = true :=
  ⟨spec_c4_depth_cap_amended.1 [] [] 2 selfLoopBS .fat32 [] 11 (by decide),
   spec_c4_depth_cap_amended.2 []⟩

theorem partReadUint32C_eq (data : List Nat) (offset : Nat) :
    partReadUint32C data offset = some (partReadUint32LE data offset) := by
  unfold partReadUint32C partReadUint32LE
  split
  · rfl
  · rename_i h
    have h0 : offset < data.length := by omega
    have h1 : offset + 1 < data.length := by omega
    have h2 : offset + 2 < data.length := by omega
    have h3 : offset + 3 < data.length := by omega
    simp [getByteC, h0, h1, h2, h3]

theorem partReadUint64C_eq (data : List Nat) (offset : Nat) :
    partReadUint64C data offset = some (partReadUint64LE data offset) := by
  unfold partReadUint64C partReadUint64LE
  split
  · rfl
  · rename_i h
    have h0 : offset < data.length := by omega
    have h1 : offset + 1 < data.length := by omega
    have h2 : offset + 2 < data.length := by omega
    have h3 : offset + 3 < data.length := by omega
    have h4 : offset + 4 < data.length := by omega
    have h5 : offset + 5 < data.length := by omega
    have h6 : offset + 6 < data.length := by omega
    have h7 : offset + 7 < data.length := by omega
    simp [getByteC, h0, h1, h2, h3, h4, h5, h6, h7]

theorem readGuidC_eq (data : List Nat) (offset : Nat) :
    readGuidC data offset = some (readGuid data offset) := by
  unfold readGuidC readGuid
  split
  · rfl
  · rename_i h
    have h4 : offset + 4 < data.length := by omega
    have h5 : offset + 5 < data.length := by omega
    have h6 : offset + 6 < data.length := by omega
    have h7 : offset + 7 < data.length := by omega
    rw [partReadUint32C_eq]
    simp [getByteC, h4, h5, h6, h7]

theorem parseMBRPartitionEntryC_eq (data : List Nat) (offset index sectorSize : Nat) :
    parseMBRPartitionEntryC data offset index sectorSize =
      some (parseMBRPartitionEntry data offset index sectorSize) := by
  unfold parseMBRPartitionEntryC parseMBRPartitionEntry
  split
  · rfl
  · rename_i h
    have h0 : offset < data.length := by omega
    have h4 : offset + 4 < data.length := by omega
    simp only [getByteC, h0, h4, if_true, Option.bind_eq_bind, Option.some_bind, if_pos]
    split
    · rfl
    · rw [partReadUint32C_eq, partReadUint32C_eq]
      simp only [Option.bind_eq_bind, Option.some_bind]

theorem mkGptPartitionC_eq (data : List Nat) (sectorSize entryOffset i : Nat) :
    mkGptPartitionC data sectorSize entryOffset i =
      some (mkGptPartition data sectorSize entryOffset i) := by
  unfold mkGptPartitionC mkGptPartition
  rw [readGuidC_eq, partReadUint64C_eq, partReadUint64C_eq, readGuidC_eq]
  rfl

theorem parseGPTEntriesC_eq (data : List Nat) (sectorSize tableOffset entrySize : Nat) :
    ∀ (count i : Nat),
    parseGPTEntriesC data sectorSize tableOffset entrySize i count =
      some (parseGPTEntries data sectorSize tableOffset entrySize i count) := by
  intro count
  induction count with
  | zero => intro i; rfl
  | succ n ih =>
    intro i
    rw [parseGPTEntriesC, parseGPTEntries]
    split
    · rfl
    · rw [readGuidC_eq]
      simp only [Option.bind_eq_bind, Option.some_bind]
      split
      · exact ih (i + 1)
      · rw [mkGptPartitionC_eq, ih (i + 1)]
        rfl

theorem parseGPTC_eq (data : List Nat) (sectorSize : Nat) :
    parseGPTC data sectorSize = some (parseGPT data sectorSize) := by
  unfold parseGPTC parseGPT
  dsimp only
  split
  · rfl
  · split
    · rfl
    · rw [readGuidC_eq]
      simp only [Option.bind_eq_bind, Option.some_bind]
      rw [partReadUint64C_eq]
      simp only [Option.bind_eq_bind, Option.some_bind]
      rw [partReadUint32C_eq]
      simp only [Option.bind_eq_bind, Option.some_bind]
      rw [partReadUint32C_eq]
      simp only [Option.bind_eq_bind, Option.some_bind]
      rw [parseGPTEntriesC_eq]
      rfl

theorem parseMBRSlotsC_eq (data : List Nat) (sectorSize : Nat) :
    ∀ (slots : List Nat) (acc : List Partition),
    parseMBRSlotsC data sectorSize slots acc =
      some (parseMBRSlots data sectorSize slots acc) := by
  intro slots
  induction slots with
  | nil => intro acc; rfl
  | cons i rest ih =>
    intro acc
    rw [parseMBRSlotsC, parseMBRSlots]
    rw [parseMBRPartitionEntryC_eq]
    simp only [Option.bind_eq_bind, Option.some_bind]
    cases hp : parseMBRPartitionEntry data (446 + i * 16) (i + 1) sectorSize with
    | none => exact ih acc
    | some p =>
      dsimp only
      split
      · exact parseGPTC_eq data sectorSize
      · exact ih (acc ++ [p])

theorem parseMBRC_eq (data : List Nat) (sectorSize : Nat) :
    parseMBRC data sectorSize = some (parseMBR data sectorSize) := by
  unfold parseMBRC parseMBR
  split
  · rename_i h
    rw [if_pos (Or.inl h)]
  · rename_i h
    have h0 : (510 : Nat) < data.length := by omega
    have h1 : (511 : Nat) < data.length := by omega
    simp only [getByteC, h0, h1, if_true, if_pos, Option.bind_eq_bind, Option.some_bind]
    split
    · rename_i hsig
      rw [if_pos (Or.inr hsig)]
    · rename_i hsig
      rw [if_neg (by tauto)]
      exact parseMBRSlotsC_eq data sectorSize [0, 1, 2, 3] []

/-- C9: the partition-table parser is a total pure function that never
throws.  `parsePartitionTableC` runs the same parse under a checked
semantics in which any byte access outside the buffer is a fault (the only
operation of this module that can raise in the source is constructing a
`DataView` over an out-of-range byte window, and the checked semantics is
stricter still, faulting on every out-of-range access); for every input
buffer and sector size — truncated buffers, out-of-range GPT entry offsets
and zero or undersized entry sizes included — the checked run faults
nowhere and returns exactly the value of the total embedding. -/
theorem spec_c9_partition_parser_total (data : List Nat) (sectorSize : Nat) :
    parsePartitionTableC data sectorSize = some (parsePartitionTable data sectorSize) := by
  unfold parsePartitionTableC parsePartitionTable
  split
  · rfl
  · exact parseMBRC_eq data sectorSize
